import Mathlib

/-!
Shallow embedding of `src/src/lib.rs` (crate `citation`).

The crate defines a `Citation` struct (plus `Author`, `Contact`, `Identifier`,
`Reference`, `License`, `Type`) deriving `serde::Deserialize`, and
`Citation::read`, which parses a YAML file with `serde_yaml::from_str`.
The embedding models the parsed YAML tree and the serde-derived
deserializers: field-name/alias matching, eager per-entry value decoding,
duplicate-field errors, unknown keys ignored (no `deny_unknown_fields`),
and missing-field checks in field declaration order, failing at the first
error (serde deserialization is fail-fast). A struct decodes from a
mapping by key, or from a sequence positionally through the derived
`visit_seq`; an externally tagged enum decodes from a string token or a
singleton mapping.
-/

/-- A parsed YAML value as handed to serde by `serde_yaml::from_str`
(mapping keys are text in every document this crate handles). -/
inductive Yaml where
  | str (s : String)
  | boolV (b : Bool)
  | intV (n : Int)
  | seq (xs : List Yaml)
  | map (kvs : List (String × Yaml))
  | nullV

/-- Decode-time errors produced by the serde-derived deserializers. -/
inductive DecodeError where
  | missingField (field : String)
  | duplicateField (field : String)
  | invalidType (expected : String)
  | unknownVariant (token : String)
  | emptyEnum (enumName : String)
  | invalidLength (len : Nat)
deriving DecidableEq

/-- `String` deserialization: only a YAML string succeeds. -/
def decodeString : Yaml → Except DecodeError String
  | .str s => .ok s
  | _ => .error (.invalidType "a string")

/-- `Option<String>` deserialization: null is `None`, a string is `Some`. -/
def decodeOptString : Yaml → Except DecodeError (Option String)
  | .nullV => .ok none
  | .str s => .ok (some s)
  | _ => .error (.invalidType "a string")

/-- `Vec<String>` deserialization (the `keywords` field). -/
def decodeStrings : Yaml → Except DecodeError (List String)
  | .seq xs => xs.mapM decodeString
  | _ => .error (.invalidType "a sequence")

/-- One positional slot of a derived `visit_seq` for a field WITHOUT
`#[serde(default)]`: take the next sequence element, or fail with an
invalid-length error carrying the field's index when the sequence is
exhausted. -/
def seqRequired {α : Type} (dec : Yaml → Except DecodeError α) (idx : Nat) :
    List Yaml → Except DecodeError (α × List Yaml)
  | [] => .error (.invalidLength idx)
  | x :: rest => do
      let a ← dec x
      .ok (a, rest)

/-- One positional slot of a derived `visit_seq` for a
`#[serde(default)]` field: an exhausted sequence yields the default
value instead of erroring. -/
def seqDefaulted {α : Type} (dec : Yaml → Except DecodeError α) (dflt : α) :
    List Yaml → Except DecodeError (α × List Yaml)
  | [] => .ok (dflt, [])
  | x :: rest => do
      let a ← dec x
      .ok (a, rest)

/-- Rust `enum Type { Software, Dataset }` (named `WorkType` here because
`Type` is reserved in Lean). -/
inductive WorkType where
  | Software
  | Dataset
deriving DecidableEq

/-- Which `Type` variant a token names: serde matches the variant name or
its declared alias, case-sensitively — `Software` has alias `software`,
`Dataset` has alias `dataset` (lib.rs lines 170-178). -/
def workTypeVariant (s : String) : Option WorkType :=
  if s = "Software" ∨ s = "software" then some .Software
  else if s = "Dataset" ∨ s = "dataset" then some .Dataset
  else none

/-- serde-derived `Type` deserialization: a string names the unit variant
directly; serde's externally tagged form also accepts a singleton
mapping such as `{Dataset: null}` whose key names the variant — a unit
variant then requires a null content. Any other shape is an invalid-type
error. -/
def decodeWorkType : Yaml → Except DecodeError WorkType
  | .str s =>
      match workTypeVariant s with
      | some t => .ok t
      | none => .error (.unknownVariant s)
  | .map [(k, v)] =>
      match workTypeVariant k with
      | none => .error (.unknownVariant k)
      | some t =>
          match v with
          | .nullV => .ok t
          | _ => .error (.invalidType "unit variant Type")
  | _ => .error (.invalidType "string or singleton mapping for enum Type")

/-- `Option<Type>` deserialization (`r#type` field). -/
def decodeOptWorkType : Yaml → Except DecodeError (Option WorkType)
  | .nullV => .ok none
  | y => (decodeWorkType y).map some

/-- Rust `enum License {}` (lib.rs lines 167-168): an enum with no
variants. -/
inductive License

instance : DecidableEq License := fun a _ => nomatch a

/-- serde-derived deserialization of the empty enum `License`: no input can
name one of its (zero) variants, so every input fails. -/
def decodeLicense (_ : Yaml) : Except DecodeError License :=
  .error (.emptyEnum "License")

/-- `Option<License>` deserialization: null is `None`; any other value is
handed to `License`'s deserializer, which always fails. -/
def decodeOptLicense : Yaml → Except DecodeError (Option License)
  | .nullV => .ok none
  | y => (decodeLicense y).map some

/-- Rust `struct Contact {}` (lib.rs line 159): no fields; any mapping
decodes (unknown keys are ignored by serde's default). -/
structure Contact where
deriving DecidableEq

def decodeContact : Yaml → Except DecodeError Contact
  | .map _ => .ok ⟨⟩
  | .seq [] => .ok ⟨⟩
  | .seq (_ :: rest) => .error (.invalidLength (rest.length + 1))
  | _ => .error (.invalidType "struct Contact")

def decodeOptContact : Yaml → Except DecodeError (Option Contact)
  | .nullV => .ok none
  | y => (decodeContact y).map some

/-- Rust `struct Identifier {}` (lib.rs line 162). -/
structure Identifier where
deriving DecidableEq

def decodeIdentifier : Yaml → Except DecodeError Identifier
  | .map _ => .ok ⟨⟩
  | .seq [] => .ok ⟨⟩
  | .seq (_ :: rest) => .error (.invalidLength (rest.length + 1))
  | _ => .error (.invalidType "struct Identifier")

def decodeIdentifiers : Yaml → Except DecodeError (List Identifier)
  | .seq xs => xs.mapM decodeIdentifier
  | _ => .error (.invalidType "a sequence")

/-- Rust `struct Reference {}` (lib.rs line 165). -/
structure Reference where
deriving DecidableEq

def decodeReference : Yaml → Except DecodeError Reference
  | .map _ => .ok ⟨⟩
  | .seq [] => .ok ⟨⟩
  | .seq (_ :: rest) => .error (.invalidLength (rest.length + 1))
  | _ => .error (.invalidType "struct Reference")

def decodeReferences : Yaml → Except DecodeError (List Reference)
  | .seq xs => xs.mapM decodeReference
  | _ => .error (.invalidType "a sequence")

/-- Rust `struct Author` (lib.rs lines 148-156): `given_names` (alias
`given-names`) and `family_names` (alias `family-names`) are required
text; `email` and `orcid` are optional. -/
structure Author where
  given_names : String
  family_names : String
  email : Option String
  orcid : Option String
deriving DecidableEq

/-- The serde field matcher for `Author`: which struct field (if any) a
mapping key selects. Matching is case-sensitive on the field name and its
declared aliases; an unmatched key is ignored. -/
inductive AField where
  | given_names
  | family_names
  | email
  | orcid
deriving DecidableEq

def authorField (k : String) : Option AField :=
  if k = "given_names" ∨ k = "given-names" then some .given_names
  else if k = "family_names" ∨ k = "family-names" then some .family_names
  else if k = "email" then some .email
  else if k = "orcid" then some .orcid
  else none

/-- Partially-filled `Author` during map traversal (`None` = not yet
seen). -/
structure AuthorAcc where
  given_names : Option String
  family_names : Option String
  email : Option (Option String)
  orcid : Option (Option String)
deriving DecidableEq

def emptyAuthorAcc : AuthorAcc := ⟨none, none, none, none⟩

/-- One map entry of an `Author` record, as the serde-derived visitor
processes it: duplicate check first, then eager value decoding; unknown
keys are ignored. -/
def authorStep (acc : AuthorAcc) (k : String) (v : Yaml) :
    Except DecodeError AuthorAcc :=
  match authorField k with
  | none => .ok acc
  | some .given_names =>
      match acc.given_names with
      | some _ => .error (.duplicateField "given_names")
      | none => do
          let s ← decodeString v
          .ok { acc with given_names := some s }
  | some .family_names =>
      match acc.family_names with
      | some _ => .error (.duplicateField "family_names")
      | none => do
          let s ← decodeString v
          .ok { acc with family_names := some s }
  | some .email =>
      match acc.email with
      | some _ => .error (.duplicateField "email")
      | none => do
          let s ← decodeOptString v
          .ok { acc with email := some s }
  | some .orcid =>
      match acc.orcid with
      | some _ => .error (.duplicateField "orcid")
      | none => do
          let s ← decodeOptString v
          .ok { acc with orcid := some s }

def authorEntries : List (String × Yaml) → AuthorAcc →
    Except DecodeError AuthorAcc
  | [], acc => .ok acc
  | (k, v) :: rest, acc => do
      let acc' ← authorStep acc k v
      authorEntries rest acc'

/-- After the map is consumed, serde resolves the fields in declaration
order: a missing required field errors; a missing `Option` field becomes
`None`. -/
def authorFinish (acc : AuthorAcc) : Except DecodeError Author :=
  match acc.given_names with
  | none => .error (.missingField "given_names")
  | some g =>
      match acc.family_names with
      | none => .error (.missingField "family_names")
      | some f => .ok ⟨g, f, acc.email.getD none, acc.orcid.getD none⟩

/-- The serde-derived `visit_seq` for `Author`: a sequence decodes the
struct's fields positionally in declaration order (`given_names`,
`family_names`, `email`, `orcid`); an exhausted sequence fails with an
invalid-length error at the missing field's index (no field of `Author`
carries `#[serde(default)]`, `Option` fields included); leftover
elements are an invalid-length error at the sequence's total length. -/
def decodeAuthorSeq (xs : List Yaml) : Except DecodeError Author := do
  let (g, r) ← seqRequired decodeString 0 xs
  let (f, r) ← seqRequired decodeString 1 r
  let (e, r) ← seqRequired decodeOptString 2 r
  let (o, r) ← seqRequired decodeOptString 3 r
  match r with
  | [] => .ok ⟨g, f, e, o⟩
  | _ => .error (.invalidLength xs.length)

def decodeAuthor : Yaml → Except DecodeError Author
  | .map kvs => do
      let acc ← authorEntries kvs emptyAuthorAcc
      authorFinish acc
  | .seq xs => decodeAuthorSeq xs
  | _ => .error (.invalidType "struct Author")

/-- `Vec<Author>` deserialization: elements in order, fail-fast. -/
def decodeAuthors : Yaml → Except DecodeError (List Author)
  | .seq xs => xs.mapM decodeAuthor
  | _ => .error (.invalidType "a sequence")

/-- Rust `struct Citation` (lib.rs lines 6-123), field for field in
declaration order. `Type` is `WorkType` here and `r#type` is `rtype`
(`Type` is reserved in Lean); serialized names are unchanged. -/
structure Citation where
  abstract : Option String
  authors : List Author
  cff_version : String
  commit : Option String
  contact : Option Contact
  date_released : Option String
  dio : Option String
  identifiers : List Identifier
  keywords : List String
  license : Option License
  license_url : Option String
  message : String
  preferred_citation : Option String
  references : List Reference
  repository : Option String
  repository_artifact : Option String
  repository_code : Option String
  title : String
  rtype : Option WorkType
  url : Option String
  version : Option String
deriving DecidableEq

/-- The serde field matcher for `Citation`. -/
inductive CField where
  | abstract
  | authors
  | cff_version
  | commit
  | contact
  | date_released
  | dio
  | identifiers
  | keywords
  | license
  | license_url
  | message
  | preferred_citation
  | references
  | repository
  | repository_artifact
  | repository_code
  | title
  | rtype
  | url
  | version
deriving DecidableEq

/-- Which `Citation` field (if any) a top-level mapping key selects:
case-sensitive match on the serialized field name or a declared
`#[serde(alias = ...)]`. Note two quirks taken verbatim from the source:
the alias of `repository_code` (lib.rs line 98) is `"repository_code"`,
the field's own name, so no hyphenated spelling is accepted for it; and
the alias of `r#type` (line 111) is `"type"`, which is already its
serialized name. Unmatched keys are ignored (the struct does not set
`deny_unknown_fields`). -/
def citationField (k : String) : Option CField :=
  if k = "abstract" then some .abstract
  else if k = "authors" then some .authors
  else if k = "cff_version" ∨ k = "cff-version" then some .cff_version
  else if k = "commit" then some .commit
  else if k = "contact" then some .contact
  else if k = "date_released" ∨ k = "date-released" then some .date_released
  else if k = "dio" then some .dio
  else if k = "identifiers" then some .identifiers
  else if k = "keywords" then some .keywords
  else if k = "license" then some .license
  else if k = "license_url" ∨ k = "license-url" then some .license_url
  else if k = "message" then some .message
  else if k = "preferred_citation" ∨ k = "preferred-citation" then
    some .preferred_citation
  else if k = "references" then some .references
  else if k = "repository" then some .repository
  else if k = "repository_artifact" ∨ k = "repository-artifact" then
    some .repository_artifact
  else if k = "repository_code" then some .repository_code
  else if k = "title" then some .title
  else if k = "type" then some .rtype
  else if k = "url" then some .url
  else if k = "version" then some .version
  else none

/-- Partially-filled `Citation` during map traversal (`None` = field not
yet seen in the document). -/
structure CitationAcc where
  abstract : Option (Option String)
  authors : Option (List Author)
  cff_version : Option String
  commit : Option (Option String)
  contact : Option (Option Contact)
  date_released : Option (Option String)
  dio : Option (Option String)
  identifiers : Option (List Identifier)
  keywords : Option (List String)
  license : Option (Option License)
  license_url : Option (Option String)
  message : Option String
  preferred_citation : Option (Option String)
  references : Option (List Reference)
  repository : Option (Option String)
  repository_artifact : Option (Option String)
  repository_code : Option (Option String)
  title : Option String
  rtype : Option (Option WorkType)
  url : Option (Option String)
  version : Option (Option String)
deriving DecidableEq

def emptyCitationAcc : CitationAcc :=
  ⟨none, none, none, none, none, none, none, none, none, none, none, none,
   none, none, none, none, none, none, none, none, none⟩

/-- One top-level map entry, as the serde-derived visitor processes it:
duplicate check first, then eager value decoding; an unmatched key's value
is consumed as `IgnoredAny` (never fails). -/
def citationStep (acc : CitationAcc) (k : String) (v : Yaml) :
    Except DecodeError CitationAcc :=
  match citationField k with
  | none => .ok acc
  | some .abstract =>
      match acc.abstract with
      | some _ => .error (.duplicateField "abstract")
      | none => do
          let x ← decodeOptString v
          .ok { acc with abstract := some x }
  | some .authors =>
      match acc.authors with
      | some _ => .error (.duplicateField "authors")
      | none => do
          let x ← decodeAuthors v
          .ok { acc with authors := some x }
  | some .cff_version =>
      match acc.cff_version with
      | some _ => .error (.duplicateField "cff_version")
      | none => do
          let x ← decodeString v
          .ok { acc with cff_version := some x }
  | some .commit =>
      match acc.commit with
      | some _ => .error (.duplicateField "commit")
      | none => do
          let x ← decodeOptString v
          .ok { acc with commit := some x }
  | some .contact =>
      match acc.contact with
      | some _ => .error (.duplicateField "contact")
      | none => do
          let x ← decodeOptContact v
          .ok { acc with contact := some x }
  | some .date_released =>
      match acc.date_released with
      | some _ => .error (.duplicateField "date_released")
      | none => do
          let x ← decodeOptString v
          .ok { acc with date_released := some x }
  | some .dio =>
      match acc.dio with
      | some _ => .error (.duplicateField "dio")
      | none => do
          let x ← decodeOptString v
          .ok { acc with dio := some x }
  | some .identifiers =>
      match acc.identifiers with
      | some _ => .error (.duplicateField "identifiers")
      | none => do
          let x ← decodeIdentifiers v
          .ok { acc with identifiers := some x }
  | some .keywords =>
      match acc.keywords with
      | some _ => .error (.duplicateField "keywords")
      | none => do
          let x ← decodeStrings v
          .ok { acc with keywords := some x }
  | some .license =>
      match acc.license with
      | some _ => .error (.duplicateField "license")
      | none => do
          let x ← decodeOptLicense v
          .ok { acc with license := some x }
  | some .license_url =>
      match acc.license_url with
      | some _ => .error (.duplicateField "license_url")
      | none => do
          let x ← decodeOptString v
          .ok { acc with license_url := some x }
  | some .message =>
      match acc.message with
      | some _ => .error (.duplicateField "message")
      | none => do
          let x ← decodeString v
          .ok { acc with message := some x }
  | some .preferred_citation =>
      match acc.preferred_citation with
      | some _ => .error (.duplicateField "preferred_citation")
      | none => do
          let x ← decodeOptString v
          .ok { acc with preferred_citation := some x }
  | some .references =>
      match acc.references with
      | some _ => .error (.duplicateField "references")
      | none => do
          let x ← decodeReferences v
          .ok { acc with references := some x }
  | some .repository =>
      match acc.repository with
      | some _ => .error (.duplicateField "repository")
      | none => do
          let x ← decodeOptString v
          .ok { acc with repository := some x }
  | some .repository_artifact =>
      match acc.repository_artifact with
      | some _ => .error (.duplicateField "repository_artifact")
      | none => do
          let x ← decodeOptString v
          .ok { acc with repository_artifact := some x }
  | some .repository_code =>
      match acc.repository_code with
      | some _ => .error (.duplicateField "repository_code")
      | none => do
          let x ← decodeOptString v
          .ok { acc with repository_code := some x }
  | some .title =>
      match acc.title with
      | some _ => .error (.duplicateField "title")
      | none => do
          let x ← decodeString v
          .ok { acc with title := some x }
  | some .rtype =>
      match acc.rtype with
      | some _ => .error (.duplicateField "type")
      | none => do
          let x ← decodeOptWorkType v
          .ok { acc with rtype := some x }
  | some .url =>
      match acc.url with
      | some _ => .error (.duplicateField "url")
      | none => do
          let x ← decodeOptString v
          .ok { acc with url := some x }
  | some .version =>
      match acc.version with
      | some _ => .error (.duplicateField "version")
      | none => do
          let x ← decodeOptString v
          .ok { acc with version := some x }

def citationEntries : List (String × Yaml) → CitationAcc →
    Except DecodeError CitationAcc
  | [], acc => .ok acc
  | (k, v) :: rest, acc => do
      let acc' ← citationStep acc k v
      citationEntries rest acc'

/-- After the map is consumed, serde resolves the fields in declaration
order: a missing `String` or `Vec<Author>` field errors (`authors`,
`cff_version`, `message`, `title`, in that order — the first one missing
is reported); a missing `Option` field becomes `None`; the
`#[serde(default)]` `Vec` fields (`identifiers`, `keywords`,
`references`) become empty. `message` has NO serde default attribute, so
it is required despite the doc comment's stated default text. -/
def citationFinish (acc : CitationAcc) : Except DecodeError Citation :=
  match acc.authors with
  | none => .error (.missingField "authors")
  | some authors =>
  match acc.cff_version with
  | none => .error (.missingField "cff_version")
  | some cff =>
  match acc.message with
  | none => .error (.missingField "message")
  | some msg =>
  match acc.title with
  | none => .error (.missingField "title")
  | some title =>
      .ok ⟨acc.abstract.getD none, authors, cff, acc.commit.getD none,
           acc.contact.getD none, acc.date_released.getD none,
           acc.dio.getD none, acc.identifiers.getD [], acc.keywords.getD [],
           acc.license.getD none, acc.license_url.getD none, msg,
           acc.preferred_citation.getD none, acc.references.getD [],
           acc.repository.getD none, acc.repository_artifact.getD none,
           acc.repository_code.getD none, title, acc.rtype.getD none,
           acc.url.getD none, acc.version.getD none⟩

/-- The serde-derived `visit_seq` for `Citation`: a sequence root decodes
the struct's 21 fields positionally in declaration order. A field
without `#[serde(default)]` takes the next element or fails with an
invalid-length error at its field index (`Option` fields included); the
three `#[serde(default)]` fields (`identifiers` at index 7, `keywords`
at index 8, `references` at index 13) become empty when the sequence is
exhausted; leftover elements are an invalid-length error at the
sequence's total length. -/
def decodeCitationSeq (xs : List Yaml) : Except DecodeError Citation := do
  let (abstract, r) ← seqRequired decodeOptString 0 xs
  let (authors, r) ← seqRequired decodeAuthors 1 r
  let (cff_version, r) ← seqRequired decodeString 2 r
  let (commit, r) ← seqRequired decodeOptString 3 r
  let (contact, r) ← seqRequired decodeOptContact 4 r
  let (date_released, r) ← seqRequired decodeOptString 5 r
  let (dio, r) ← seqRequired decodeOptString 6 r
  let (identifiers, r) ← seqDefaulted decodeIdentifiers [] r
  let (keywords, r) ← seqDefaulted decodeStrings [] r
  let (license, r) ← seqRequired decodeOptLicense 9 r
  let (license_url, r) ← seqRequired decodeOptString 10 r
  let (message, r) ← seqRequired decodeString 11 r
  let (preferred_citation, r) ← seqRequired decodeOptString 12 r
  let (references, r) ← seqDefaulted decodeReferences [] r
  let (repository, r) ← seqRequired decodeOptString 14 r
  let (repository_artifact, r) ← seqRequired decodeOptString 15 r
  let (repository_code, r) ← seqRequired decodeOptString 16 r
  let (title, r) ← seqRequired decodeString 17 r
  let (rtype, r) ← seqRequired decodeOptWorkType 18 r
  let (url, r) ← seqRequired decodeOptString 19 r
  let (version, r) ← seqRequired decodeOptString 20 r
  match r with
  | [] => .ok ⟨abstract, authors, cff_version, commit, contact,
               date_released, dio, identifiers, keywords, license,
               license_url, message, preferred_citation, references,
               repository, repository_artifact, repository_code, title,
               rtype, url, version⟩
  | _ => .error (.invalidLength xs.length)

/-- `Citation::read` (lib.rs lines 126-130) after the I/O shell: the file
content has been parsed into a YAML tree and `serde_yaml::from_str`
deserializes a `Citation` from it. A mapping root is decoded by key, its
entries processed in document order with the first error aborting
deserialization; a sequence root is decoded positionally through the
derived `visit_seq`; any other root fails immediately with the struct's
invalid-type error. -/
def Citation.read (doc : Yaml) : Except DecodeError Citation :=
  match doc with
  | .map kvs => do
      let acc ← citationEntries kvs emptyCitationAcc
      citationFinish acc
  | .seq xs => decodeCitationSeq xs
  | _ => .error (.invalidType "struct Citation")

/-! ### Fixtures: concrete documents and their decoded values -/

/-- An author record using the hyphenated key spellings. -/
def adaMap : Yaml :=
  .map [("given-names", .str "Ada"), ("family-names", .str "Lovelace")]

def adaAuthor : Author := ⟨"Ada", "Lovelace", none, none⟩

/-- Minimal valid document: `title`, `message`, `cff-version` (the schema
version), one author. -/
def minimalKvs : List (String × Yaml) :=
  [("title", .str "My Research Software"),
   ("message", .str "Please cite this software"),
   ("cff-version", .str "1.2.0"),
   ("authors", .seq [adaMap])]

def minimalDoc : Yaml := .map minimalKvs

/-- The `Citation` value `minimalDoc` decodes to. -/
def minimalCitation : Citation :=
  ⟨none, [adaAuthor], "1.2.0", none, none, none, none, [], [], none, none,
   "Please cite this software", none, [], none, none, none,
   "My Research Software", none, none, none⟩

/-- The traversal state after consuming `minimalKvs`. -/
def minimalAcc : CitationAcc :=
  ⟨none, some [adaAuthor], some "1.2.0", none, none, none, none, none, none,
   none, none, some "Please cite this software", none, none, none, none, none,
   some "My Research Software", none, none, none⟩

/-- The minimal document extended with one further top-level entry. -/
def minimalPlus (k : String) (v : Yaml) : Yaml :=
  .map (minimalKvs ++ [(k, v)])

/-- A well-shaped sequence root: one element per `Citation` field in
declaration order (21 elements). -/
def seqRootElems : List Yaml :=
  [.nullV, .seq [adaMap], .str "1.2.0", .nullV, .nullV, .nullV, .nullV,
   .seq [], .seq [], .nullV, .nullV, .str "m", .nullV, .seq [], .nullV,
   .nullV, .nullV, .str "T", .nullV, .nullV, .nullV]

/-- The `Citation` the sequence root decodes to. -/
def seqRootCitation : Citation :=
  ⟨none, [adaAuthor], "1.2.0", none, none, none, none, [], [], none, none,
   "m", none, [], none, none, none, "T", none, none, none⟩

/-! ### Helper lemmas about the traversal -/

/-- Entries whose keys match no `Author` field are ignored wholesale. -/
theorem authorEntries_ignored (l : List (String × Yaml)) (acc : AuthorAcc)
    (h : ∀ p ∈ l, authorField p.1 = none) :
    authorEntries l acc = .ok acc := by
  induction l generalizing acc with
  | nil => rfl
  | cons p rest ih =>
      obtain ⟨k, v⟩ := p
      have hk : authorField k = none := h (k, v) (List.mem_cons_self _ _)
      show (do
        let a ← authorStep acc k v
        authorEntries rest a) = .ok acc
      rw [show authorStep acc k v = .ok acc from by simp [authorStep, hk]]
      exact ih acc (fun p hp => h p (List.mem_cons_of_mem _ hp))

/-- Entries whose keys match no `Citation` field are ignored wholesale. -/
theorem citationEntries_ignored (l : List (String × Yaml)) (acc : CitationAcc)
    (h : ∀ p ∈ l, citationField p.1 = none) :
    citationEntries l acc = .ok acc := by
  induction l generalizing acc with
  | nil => rfl
  | cons p rest ih =>
      obtain ⟨k, v⟩ := p
      have hk : citationField k = none := h (k, v) (List.mem_cons_self _ _)
      show (do
        let a ← citationStep acc k v
        citationEntries rest a) = .ok acc
      rw [show citationStep acc k v = .ok acc from by simp [citationStep, hk]]
      exact ih acc (fun p hp => h p (List.mem_cons_of_mem _ hp))

/-- Traversal splits over list append. -/
theorem citationEntries_append (l₁ l₂ : List (String × Yaml))
    (acc : CitationAcc) :
    citationEntries (l₁ ++ l₂) acc =
      (citationEntries l₁ acc).bind (fun a => citationEntries l₂ a) := by
  induction l₁ generalizing acc with
  | nil => rfl
  | cons p rest ih =>
      obtain ⟨k, v⟩ := p
      show (do
        let a ← citationStep acc k v
        citationEntries (rest ++ l₂) a) =
          ((do
            let a ← citationStep acc k v
            citationEntries rest a).bind fun a => citationEntries l₂ a)
      cases hstep : citationStep acc k v with
      | error e => rfl
      | ok a =>
          show citationEntries (rest ++ l₂) a =
            (citationEntries rest a).bind fun a => citationEntries l₂ a
          exact ih a

/-! ### Claim theorems -/

/-- C1 (counterexample): an author record holding only a `name` key does
not decode as an Entity variant — the crate's `Author` has no Entity
variant at all (the enum is commented out in lib.rs lines 137-146) — and
the decode error is a missing-field error for `given_names`, not an
UnrecognizedVariant. -/
theorem C1_counterexample_name_only_author :
    decodeAuthors (.seq [.map [("name", .str "Acme Corp")]]) =
      .error (.missingField "given_names") := rfl

/-- C1 (amended): `Author` is a single (Person-shaped) record: records
with `given-names`/`family-names` keys, hyphenated or underscored, decode
to an Author; a record that also carries a `name` key still decodes the
same way, the extra key being silently ignored (no AmbiguousVariant); a
record none of whose keys matches an Author field fails with the
missing-field error for `given_names` (no UnrecognizedVariant). -/
theorem C1_author_single_variant_amended :
    (∀ g f : String,
      decodeAuthor (.map [("given-names", .str g), ("family-names", .str f)]) =
        .ok ⟨g, f, none, none⟩) ∧
    (∀ g f : String,
      decodeAuthor (.map [("given_names", .str g), ("family_names", .str f)]) =
        .ok ⟨g, f, none, none⟩) ∧
    (∀ g f n : String,
      decodeAuthor (.map [("given-names", .str g), ("family-names", .str f),
                          ("name", .str n)]) = .ok ⟨g, f, none, none⟩) ∧
    (∀ kvs : List (String × Yaml), (∀ p ∈ kvs, authorField p.1 = none) →
      decodeAuthor (.map kvs) = .error (.missingField "given_names")) := by
  refine ⟨fun g f => rfl, fun g f => rfl, fun g f n => rfl, ?_⟩
  intro kvs h
  show (do
    let acc ← authorEntries kvs emptyAuthorAcc
    authorFinish acc) = .error (.missingField "given_names")
  rw [authorEntries_ignored kvs emptyAuthorAcc h]
  rfl

/-- C1 witness: the amended theorem applied to the record
`{institution: Acme}`, none of whose keys is an Author field. -/
theorem C1_author_single_variant_amended_witness :
    decodeAuthor (.map [("institution", .str "Acme")]) =
      .error (.missingField "given_names") :=
  C1_author_single_variant_amended.2.2.2 [("institution", .str "Acme")]
    (by decide)

/-- C2 (code bug): `message` carries no serde default attribute, so a
document missing only `message` fails to decode with a missing-field
error for `message` — contradicting the field's own doc comment (lib.rs
line 67), which states the format-defined default text. -/
theorem C2_missing_message_errors_despite_documented_default :
    Citation.read (.map [("title", .str "T"), ("cff-version", .str "1.2.0"),
                         ("authors", .seq [adaMap])]) =
      .error (.missingField "message") := rfl

/-- C3 (counterexample): the token `DATASET` does not decode to `Dataset`
(serde variant/alias matching is case-sensitive and only `Dataset` and
`dataset` are accepted), and a document without a `type` field decodes
with the `type` field unset (`none`), not `Software`. -/
theorem C3_counterexample_uppercase_dataset_and_absent_type :
    decodeWorkType (.str "DATASET") = .error (.unknownVariant "DATASET") ∧
    Citation.read minimalDoc = .ok minimalCitation ∧
    minimalCitation.rtype = none := ⟨rfl, rfl, rfl⟩

/-- C3 (amended): `dataset` and `Dataset` decode to `Dataset`, `software`
and `Software` decode to `Software`; any other token — `DATASET`
included — is an unknown-variant error; and when the `type` field is
absent the decoded field is `none` (the `Default` derive on the Rust enum
names `Software`, but deserialization never applies it to the `Option`
field). -/
theorem C3_type_matching_amended :
    decodeWorkType (.str "dataset") = .ok .Dataset ∧
    decodeWorkType (.str "Dataset") = .ok .Dataset ∧
    decodeWorkType (.str "software") = .ok .Software ∧
    decodeWorkType (.str "Software") = .ok .Software ∧
    (∀ s : String, s ≠ "Software" → s ≠ "software" → s ≠ "Dataset" →
      s ≠ "dataset" → decodeWorkType (.str s) = .error (.unknownVariant s)) ∧
    (Citation.read minimalDoc).map Citation.rtype = .ok none := by
  refine ⟨rfl, rfl, rfl, rfl, ?_, rfl⟩
  intro s h1 h2 h3 h4
  simp [decodeWorkType, workTypeVariant, h1, h2, h3, h4]

/-- C3 witness: the amended theorem's unknown-token component applied to
the token `Paper`. -/
theorem C3_type_matching_amended_witness :
    decodeWorkType (.str "Paper") = .error (.unknownVariant "Paper") :=
  C3_type_matching_amended.2.2.2.2.1 "Paper" (by decide) (by decide)
    (by decide) (by decide)

/-- C4 (counterexample): a document missing `authors`, `cff_version` and
`title` at once yields the single error for `authors` alone — serde
deserialization is fail-fast and never accumulates an error sequence. -/
theorem C4_counterexample_single_error_only :
    Citation.read (.map [("message", .str "m")]) =
      .error (.missingField "authors") := rfl

/-- C4 (amended): decoding short-circuits structurally only on a root
that is neither a mapping nor a sequence — serde's derived visitor also
accepts a sequence root, decoding the struct's fields positionally, so a
well-shaped 21-element sequence decodes into a `Citation` and an empty
one fails with an invalid-length error, not the struct invalid-type
error. On a mapping root decoding stops at the FIRST field error; among
missing required fields, the first in struct declaration order
(`authors`, then `cff_version`, then `message`, then `title`) is the one
reported. A `Citation` is returned only when no error occurred. -/
theorem C4_fail_fast_amended :
    (∀ doc : Yaml, (∀ kvs, doc ≠ .map kvs) → (∀ xs, doc ≠ .seq xs) →
      Citation.read doc = .error (.invalidType "struct Citation")) ∧
    Citation.read (.seq seqRootElems) = .ok seqRootCitation ∧
    Citation.read (.seq []) = .error (.invalidLength 0) ∧
    Citation.read (.map [("message", .str "m")]) =
      .error (.missingField "authors") ∧
    Citation.read (.map [("message", .str "m"), ("authors", .seq [adaMap])]) =
      .error (.missingField "cff_version") ∧
    Citation.read (.map [("message", .str "m"), ("authors", .seq [adaMap]),
                         ("cff-version", .str "1.2.0")]) =
      .error (.missingField "title") := by
  refine ⟨?_, rfl, rfl, rfl, rfl, rfl⟩
  intro doc hm hs
  cases doc with
  | map kvs => exact absurd rfl (hm kvs)
  | seq xs => exact absurd rfl (hs xs)
  | str s => rfl
  | boolV b => rfl
  | intV n => rfl
  | nullV => rfl

/-- C4 witness: the amended theorem's structural-failure component applied
to a scalar root. -/
theorem C4_fail_fast_amended_witness :
    Citation.read (.str "not a mapping") =
      .error (.invalidType "struct Citation") :=
  C4_fail_fast_amended.1 (.str "not a mapping")
    (fun _ h => Yaml.noConfusion h) (fun _ h => Yaml.noConfusion h)

/-- The document of C5: empty `title`, empty `cff-version`, empty
`authors` sequence. -/
def emptyFieldsKvs : List (String × Yaml) :=
  [("title", .str ""), ("message", .str "m"), ("cff-version", .str ""),
   ("authors", .seq [])]

/-- The `Citation` the C5 document decodes to. -/
def emptyFieldsCitation : Citation :=
  ⟨none, [], "", none, none, none, none, [], [], none, none, "m", none, [],
   none, none, none, "", none, none, none⟩

/-- C5 (counterexample): a document with an empty `authors` sequence, an
empty `title` and an empty schema version DOES decode into a `Citation` —
no non-emptiness invariant is enforced anywhere in the crate. -/
theorem C5_counterexample_empty_fields_decode :
    Citation.read (.map emptyFieldsKvs) = .ok emptyFieldsCitation ∧
    emptyFieldsCitation.authors = [] ∧
    emptyFieldsCitation.title = "" ∧
    emptyFieldsCitation.cff_version = "" := ⟨rfl, rfl, rfl, rfl⟩

/-- C5 (amended): a successful decode guarantees only the PRESENCE and
string/sequence typing of `title`, `message`, `cff_version` and
`authors` — a document omitting `title` still fails — but empty strings
and an empty author list are accepted without complaint. -/
theorem C5_presence_required_emptiness_not :
    Citation.read (.map emptyFieldsKvs) = .ok emptyFieldsCitation ∧
    Citation.read (.map [("message", .str "m"), ("cff-version", .str ""),
                         ("authors", .seq [])]) =
      .error (.missingField "title") := ⟨rfl, rfl⟩

/-- C6 (code bug): the hyphenated spellings work for `cff-version`
(exercised by the minimal document itself), `date-released`,
`license-url`, `preferred-citation` and `repository-artifact`, but NOT
for `repository-code`: the serde alias on `repository_code` (lib.rs line
98) is `"repository_code"` — the field's own name — so the hyphenated key
is an unknown key, silently ignored, and the field stays unset. -/
theorem C6_repository_code_hyphen_alias_missing (u : String) :
    Citation.read (minimalPlus "repository-code" (.str u)) =
      .ok minimalCitation ∧
    minimalCitation.repository_code = none ∧
    Citation.read (minimalPlus "repository_code" (.str u)) =
      .ok { minimalCitation with repository_code := some u } ∧
    Citation.read (minimalPlus "repository-artifact" (.str u)) =
      .ok { minimalCitation with repository_artifact := some u } ∧
    Citation.read (minimalPlus "date-released" (.str u)) =
      .ok { minimalCitation with date_released := some u } ∧
    Citation.read (minimalPlus "license-url" (.str u)) =
      .ok { minimalCitation with license_url := some u } ∧
    Citation.read (minimalPlus "preferred-citation" (.str u)) =
      .ok { minimalCitation with preferred_citation := some u } :=
  ⟨rfl, rfl, rfl, rfl, rfl, rfl, rfl⟩

/-- C6 witness: the theorem applied to a concrete URL — the hyphenated
`repository-code` entry leaves the decoded value identical to the minimal
one. -/
theorem C6_repository_code_hyphen_alias_missing_witness :
    Citation.read (minimalPlus "repository-code"
        (.str "https://example.org/repo")) = .ok minimalCitation :=
  (C6_repository_code_hyphen_alias_missing "https://example.org/repo").1

/-- C7 (counterexample): `date_released: "2021-02-30"` decodes
successfully — the field is an `Option<String>` holding raw text and no
calendar (or even digit-pattern) validation exists anywhere in the
crate. -/
theorem C7_counterexample_feb30_decodes :
    Citation.read (minimalPlus "date-released" (.str "2021-02-30")) =
      .ok { minimalCitation with date_released := some "2021-02-30" } := rfl

/-- C7 (amended): any string whatsoever placed in `date_released` decodes
successfully into the field verbatim; decoding performs no date
validation of any kind. -/
theorem C7_no_date_validation_amended (s : String) :
    Citation.read (minimalPlus "date-released" (.str s)) =
      .ok { minimalCitation with date_released := some s } := rfl

/-- C7 witness: the amended theorem applied to another impossible
date. -/
theorem C7_no_date_validation_amended_witness :
    Citation.read (minimalPlus "date-released" (.str "2021-13-99")) =
      .ok { minimalCitation with date_released := some "2021-13-99" } :=
  C7_no_date_validation_amended "2021-13-99"

/-- C8 (counterexample): a document with two unrecognized top-level keys
decodes to exactly the same `Citation` as the document without them — no
warnings are produced (the decoder has no warning output at all) and no
strict mode exists in the crate's API. -/
theorem C8_counterexample_unknown_keys_silent :
    Citation.read (.map (minimalKvs ++
        [("frobnicate", .str "x"), ("quux", .str "y")])) =
      .ok minimalCitation ∧
    Citation.read minimalDoc = .ok minimalCitation := ⟨rfl, rfl⟩

/-- C8 (amended): for ANY two keys matching no `Citation` field and any
values under them, appending them to the minimal document changes nothing:
decoding succeeds with the same `Citation`, silently; there is no warning
channel and no strict mode. -/
theorem C8_unknown_keys_ignored_amended (k₁ k₂ : String) (v₁ v₂ : Yaml)
    (h₁ : citationField k₁ = none) (h₂ : citationField k₂ = none) :
    Citation.read (.map (minimalKvs ++ [(k₁, v₁), (k₂, v₂)])) =
      .ok minimalCitation := by
  have hext : citationEntries [(k₁, v₁), (k₂, v₂)] minimalAcc =
      .ok minimalAcc := by
    apply citationEntries_ignored
    intro p hp
    simp only [List.mem_cons, List.not_mem_nil, or_false] at hp
    rcases hp with rfl | rfl
    · exact h₁
    · exact h₂
  have hfull : citationEntries (minimalKvs ++ [(k₁, v₁), (k₂, v₂)])
      emptyCitationAcc = .ok minimalAcc := by
    rw [citationEntries_append]
    rw [show citationEntries minimalKvs emptyCitationAcc = .ok minimalAcc
      from rfl]
    exact hext
  show (do
    let acc ← citationEntries (minimalKvs ++ [(k₁, v₁), (k₂, v₂)])
      emptyCitationAcc
    citationFinish acc) = .ok minimalCitation
  rw [hfull]
  rfl

/-- C8 witness: the amended theorem applied to two concrete unknown keys
with null values. -/
theorem C8_unknown_keys_ignored_amended_witness :
    Citation.read (.map (minimalKvs ++
        [("badkey", .nullV), ("worsekey", .nullV)])) =
      .ok minimalCitation :=
  C8_unknown_keys_ignored_amended "badkey" "worsekey" .nullV .nullV
    (by decide) (by decide)

/-- C9 (confirmed): `License` is an enum with no variants, so its
deserializer fails on every input; consequently `license` present with
any non-null value — here any string token — makes the whole document
fail to decode. Only a null value (or absence) survives, as `None`. -/
theorem C9_license_never_decodes :
    (∀ y : Yaml, y ≠ .nullV →
      decodeOptLicense y = .error (.emptyEnum "License")) ∧
    (∀ u : String,
      Citation.read (minimalPlus "license" (.str u)) =
        .error (.emptyEnum "License")) := by
  constructor
  · intro y hy
    cases y with
    | nullV => exact absurd rfl hy
    | str s => rfl
    | boolV b => rfl
    | intV n => rfl
    | seq xs => rfl
    | map kvs => rfl
  · intro u
    rfl

/-- C9 witness: the theorem applied to the token `MIT` — both at the field
level and for the whole document. -/
theorem C9_license_never_decodes_witness :
    decodeOptLicense (.str "MIT") = .error (.emptyEnum "License") ∧
    Citation.read (minimalPlus "license" (.str "MIT")) =
      .error (.emptyEnum "License") :=
  ⟨C9_license_never_decodes.1 (.str "MIT") (fun h => Yaml.noConfusion h),
   C9_license_never_decodes.2 "MIT"⟩

/-- The C10 document as the claim words it: `title`, `message`, the schema
version, and one Entity author (a bare `name`). -/
def entityMinimalDoc : Yaml :=
  .map [("title", .str "T"), ("message", .str "m"),
        ("cff-version", .str "1.2.0"),
        ("authors", .seq [.map [("name", .str "Acme Corporation")]])]

/-- C10 (counterexample): the claim's minimal document does not decode at
all — an Entity author (bare `name`) is rejected with a missing-field
error for `given_names`, so no `Citation` exists to compare across two
decodes. -/
theorem C10_counterexample_entity_document_fails :
    Citation.read entityMinimalDoc =
      .error (.missingField "given_names") := rfl

/-- C10 (amended): decoding is deterministic — `Citation.read` is a pure
function, so re-decoding any document yields the identical result — and a
minimal valid document whose one author is a Person record decodes to a
concrete `Citation`, identically on every decode. -/
theorem C10_decode_deterministic_amended :
    (∀ doc : Yaml, Citation.read doc = Citation.read doc) ∧
    Citation.read minimalDoc = .ok minimalCitation :=
  ⟨fun _ => rfl, rfl⟩

/-- C10 witness: the amended theorem's determinism component applied to
the minimal document. -/
theorem C10_decode_deterministic_amended_witness :
    Citation.read minimalDoc = Citation.read minimalDoc :=
  C10_decode_deterministic_amended.1 minimalDoc
